import Mathlib

/-!
Shallow embedding of `strongMan/apps/certificates/container.py`.

The external libraries (`oscrypto.keys`, `asn1crypto.keys`, `hashlib`,
`binascii`, `re`) are trusted black boxes.  Their decode entry points are
modelled by an abstract `Lib` structure: each parse function returns
`none` exactly when the corresponding Python call (including the
subsequent `.native` access performed inside the same `try` block) raises,
and otherwise returns the projections of the decoded object that the
source code reads.  `hashlib.sha256` is modelled as an abstract digest
function whose output is a list of 32 bytes, which is the documented
contract of the real primitive.  Everything written in `container.py`
itself is embedded concretely.
-/

namespace StrongMan

/-- A Python `bytes` value: a list of byte values. -/
abbrev Bytes := List Nat

/-- A Python object passed to `oscrypto.keys.parse_private`.  The source
contains the call `cls._is_pkcs8(bytes, password=password)` whose first
argument is the Python *builtin type object* `bytes`, not the candidate
byte string; `PyObj.typeObject` models that builtin type object. -/
inductive PyObj where
  | ofBytes (b : Bytes)
  | typeObject
deriving DecidableEq

/-- The `ContainerTypes` enumeration of `container.py`. -/
inductive ContainerTypes where
  | PKCS1
  | PKCS8
  | PKCS12
  | X509
  | Undefined
deriving DecidableEq

/-- `ContainerTypes.<tag>.value` in Python: the string payload of the enum
member (`None` for `Undefined`). -/
def ContainerTypes.value : ContainerTypes → Option String
  | .PKCS1 => some "PKCS1"
  | .PKCS8 => some "PKCS8"
  | .PKCS12 => some "PKCS12"
  | .X509 => some "X509"
  | .Undefined => none

/-- The projections of a decoded private-key object
(`oscrypto.keys.parse_private` result) that `container.py` reads.
A field holds `none` when the corresponding Python access
(`native["private_key"]["modulus"]`, …) would raise or yield `None`. -/
structure PrivObj where
  /-- `self.asn1.algorithm` -/
  algorithm : String
  /-- `native["private_key"]["modulus"]` -/
  modulus : Option Int
  /-- `native["private_key"]["public_key"]` (an EC point, a bytes value) -/
  public_key : Option Bytes
  /-- `keys.RSAPrivateKey.load(native["private_key"]).native["modulus"]` -/
  loaded_rsa_modulus : Option Int
  /-- `keys.ECPrivateKey.load(native["private_key"]).native["public_key"]` -/
  loaded_ec_public_key : Option Bytes
  /-- `self.asn1.dump()` -/
  dump : Bytes
deriving DecidableEq

/-- The projections of a decoded certificate object
(`oscrypto.keys.parse_certificate` result) that `container.py` reads. -/
structure CertObj where
  /-- `native["tbs_certificate"]["subject_public_key_info"]["algorithm"]["algorithm"]` -/
  spki_algorithm : String
  /-- `native[...]["subject_public_key_info"]["public_key"]["modulus"]` -/
  spki_modulus : Option Int
  /-- `native[...]["subject_public_key_info"]["public_key"]` for EC keys -/
  spki_public_key : Option Bytes
  /-- `self.asn1.hash_algo` -/
  hash_algo : String
  /-- `self.asn1.serial_number` -/
  serial_number : Int
  /-- `self.asn1.ca` (a Python value that may be `None`, `False` or `True`) -/
  ca : Option Bool
  /-- `native["tbs_certificate"]["validity"]["not_before"]` lookup result -/
  not_before : Option Int
  /-- `native["tbs_certificate"]["validity"]["not_after"]` lookup result -/
  not_after : Option Int
  /-- `self.asn1.issuer.native`, a flat string dictionary -/
  issuer : List (String × String)
  /-- `self.asn1.subject.native`, a flat string dictionary -/
  subject : List (String × String)
  /-- `self.asn1.valid_domains` -/
  valid_domains : List String
  /-- `self.asn1.dump()` -/
  dump : Bytes
deriving DecidableEq

/-- The triple returned by `oscrypto.keys.parse_pkcs12`. -/
structure Pkcs12Obj where
  privatekey : PrivObj
  cert : CertObj
  certs : List CertObj
deriving DecidableEq

/-- The trusted external libraries.  Each parse function returns `none`
exactly when the Python call raises (any exception).  `sha256` is the
`hashlib` digest (32 bytes), `utf8` is `str.encode("utf-8")` and
`str_bytes` is Python `str()` applied to a bytes value. -/
structure Lib where
  parse_private : PyObj → Option Bytes → Option PrivObj
  parse_certificate : Bytes → Option Bytes → Option CertObj
  parse_pkcs12 : Bytes → Option Bytes → Option Pkcs12Obj
  sha256 : List Nat → List Nat
  utf8 : String → List Nat
  str_bytes : Bytes → String
  /-- `hashlib.sha256(...).digest()` always yields exactly 32 bytes. -/
  sha256_length : ∀ s, (sha256 s).length = 32
  /-- the digest consists of byte values. -/
  sha256_bytes : ∀ s, ∀ b ∈ sha256 s, b < 256
  /-- `oscrypto.keys.parse_private` raises a `TypeError` when handed the
  builtin type object `bytes` instead of a byte string. -/
  parse_private_type_object : ∀ p, parse_private PyObj.typeObject p = none

namespace ContainerDetector

/-- `ContainerDetector._is_x509`: trial certificate decode, any failure
absorbed into `False`. -/
def is_x509 (L : Lib) (container_bytes : Bytes) (password : Option Bytes) : Bool :=
  (L.parse_certificate container_bytes password).isSome

/-- `ContainerDetector._is_pkcs8`: trial private-key decode, then require
that the native tree exposes a non-`None` `modulus` or `public_key` field;
any failure absorbed into `False`. -/
def is_pkcs8 (L : Lib) (container_bytes : PyObj) (password : Option Bytes) : Bool :=
  match L.parse_private container_bytes password with
  | none => false
  | some cert => cert.modulus.isSome || cert.public_key.isSome

/-- `ContainerDetector._is_pkcs1` as written in the source: the exclusion
check is `cls._is_pkcs8(bytes, password=password)` where `bytes` is the
Python builtin type object, not the candidate input. -/
def is_pkcs1 (L : Lib) (container_bytes : PyObj) (password : Option Bytes) : Bool :=
  if is_pkcs8 L PyObj.typeObject password then false
  else (L.parse_private container_bytes password).isSome

/-- `ContainerDetector._is_pkcs12`: trial bundle decode. -/
def is_pkcs12 (L : Lib) (container_bytes : Bytes) (password : Option Bytes) : Bool :=
  (L.parse_pkcs12 container_bytes password).isSome

/-- `ContainerDetector.detect_type`: the ordered probe cascade. -/
def detect_type (L : Lib) (container_bytes : Bytes) (password : Option Bytes) :
    ContainerTypes :=
  if is_pkcs12 L container_bytes password then ContainerTypes.PKCS12
  else if is_pkcs8 L (PyObj.ofBytes container_bytes) password then ContainerTypes.PKCS8
  else if is_pkcs1 L (PyObj.ofBytes container_bytes) password then ContainerTypes.PKCS1
  else if is_x509 L container_bytes password then ContainerTypes.X509
  else ContainerTypes.Undefined

end ContainerDetector

/-- One lowercase hexadecimal digit, as produced by `binascii.hexlify`. -/
def hexDigitChar (n : Nat) : Char :=
  if n < 10 then Char.ofNat (48 + n) else Char.ofNat (87 + n)

/-- `binascii.hexlify`: two lowercase hex digits per byte, concatenated. -/
def hexlify (bs : List Nat) : List Char :=
  bs.flatMap (fun b => [hexDigitChar (b / 16), hexDigitChar (b % 16)])

/-- `re.findall('..', s)`: consecutive two-character groups, a trailing
odd character dropped. -/
def chunkPairs : List Char → List (List Char)
  | a :: b :: rest => [a, b] :: chunkPairs rest
  | _ => []

namespace AbstractContainer

/-- `AbstractContainer._format_hash`: hexlify, uppercase, split into
two-character groups, append `":"` after each group, drop the final
character (`formated_hash[:-1]`). -/
def format_hash (hash_bytes : List Nat) : String :=
  String.mk
    (((chunkPairs ((hexlify hash_bytes).map Char.toUpper)).flatMap
        (fun part => part ++ [':'])).dropLast)

/-- `AbstractContainer._sha256`: UTF-8 encode, SHA-256 digest, format. -/
def sha256 (L : Lib) (value : String) : String :=
  format_hash (L.sha256 (L.utf8 value))

end AbstractContainer

/-- Python `str.lower()` (ASCII case folding suffices here). -/
def lowerStr (s : String) : String := String.mk (s.data.map Char.toLower)

/-- The exceptions that can escape the container operations:
`AssertionError` from the `assert self.type == ...` statements, any
decode failure raised by the external parser, the
`CertificateException` raised by `_raise_if_wrong_algorithm` (the
`CertificateException` class itself lives in the sibling `models` module,
which is not part of the analysed sources; modelled from the spec as the
`UnsupportedAlgorithm` hard-rejection error), and `pyError` for any other
Python runtime error (unbound local, key error) escaping a method. -/
inductive ParseErr where
  | assertionError
  | decodeError
  | certificateException (msg : String)
  | pyError
deriving DecidableEq

/-- `AbstractContainer._raise_if_wrong_algorithm`. -/
def AbstractContainer.raise_if_wrong_algorithm (algo : String) : Except ParseErr Unit :=
  let algorithm_lower := lowerStr algo
  if ¬(algorithm_lower = "rsa" ∨ algorithm_lower = "ec") then
    Except.error (ParseErr.certificateException
      ("Detected unsupported algorithm " ++ algorithm_lower))
  else Except.ok ()

/-- The state set up by `AbstractContainer.by_bytes`: raw bytes, the
detected type tag and the stored password. -/
structure Container where
  bytes : Bytes
  type : ContainerTypes
  password : Option Bytes
deriving DecidableEq

/-- `AbstractContainer.by_bytes`. -/
def AbstractContainer.by_bytes (L : Lib) (b : Bytes) (password : Option Bytes) :
    Container :=
  { bytes := b
    type := ContainerDetector.detect_type L b password
    password := password }

/-- Modelled from the spec: the `PrivateKey` normalized entity of the
sibling `models` module (not part of the analysed sources) — algorithm
tag, DER bytes, original container type tag, public-key fingerprint. -/
structure PrivateKey where
  algorithm : String
  der_container : Bytes
  type : Option String
  public_key_hash : String
deriving DecidableEq

/-- Modelled from the spec: the `SubjectInfo` entity of the sibling
`models` module — seven optional string fields defaulting to `""`. -/
structure SubjectInfo where
  cname : String
  organization : String
  unit : String
  location : String
  province : String
  country : String
  email : String
deriving DecidableEq

/-- Modelled from the spec: the `Certificate` normalized entity of the
sibling `models` module. -/
structure Certificate where
  der_container : Bytes
  type : Option String
  algorithm : String
  hash_algorithm : String
  public_key_hash : String
  serial_number : Int
  is_CA : Bool
  valid_not_after : Option Int
  valid_not_before : Option Int
  issuer : SubjectInfo
  subject : SubjectInfo
  domains : List String
deriving DecidableEq

namespace PKCS8Container

/-- `PKCS8Container.parse`: assert the detected tag, decode (the decode
and the `.native` touch are one black-box step), then the algorithm
guard.  The decoded object is the result. -/
def parse (L : Lib) (c : Container) : Except ParseErr PrivObj :=
  if c.type = ContainerTypes.PKCS8 then
    match L.parse_private (PyObj.ofBytes c.bytes) c.password with
    | none => Except.error ParseErr.decodeError
    | some o =>
      match AbstractContainer.raise_if_wrong_algorithm o.algorithm with
      | Except.error e => Except.error e
      | Except.ok _ => Except.ok o
  else Except.error ParseErr.assertionError

/-- The identifier string `str(ident)` of `PKCS8Container.public_key_hash`:
the decimal modulus for RSA, the stringified EC point for EC; `none` when
the branch raises (missing field, or no branch assigns `ident`). -/
def identString (L : Lib) (o : PrivObj) : Option String :=
  if o.algorithm = "rsa" then o.modulus.map (fun m => toString m)
  else if o.algorithm = "ec" then o.public_key.map L.str_bytes
  else none

/-- `PKCS8Container.public_key_hash`. -/
def public_key_hash (L : Lib) (o : PrivObj) : Option String :=
  (identString L o).map (AbstractContainer.sha256 L)

/-- `PKCS8Container.to_private_key` applied to the parsed object. -/
def to_private_key (L : Lib) (c : Container) (o : PrivObj) :
    Except ParseErr PrivateKey :=
  match public_key_hash L o with
  | none => Except.error ParseErr.pyError
  | some h =>
    Except.ok
      { algorithm := o.algorithm
        der_container := o.dump
        type := c.type.value
        public_key_hash := h }

/-- `container.parse(); container.to_private_key()` as one pipeline. -/
def parse_to_private_key (L : Lib) (c : Container) : Except ParseErr PrivateKey :=
  match parse L c with
  | Except.error e => Except.error e
  | Except.ok o => to_private_key L c o

end PKCS8Container

namespace PKCS1Container

/-- `PKCS1Container.parse`. -/
def parse (L : Lib) (c : Container) : Except ParseErr PrivObj :=
  if c.type = ContainerTypes.PKCS1 then
    match L.parse_private (PyObj.ofBytes c.bytes) c.password with
    | none => Except.error ParseErr.decodeError
    | some o =>
      match AbstractContainer.raise_if_wrong_algorithm o.algorithm with
      | Except.error e => Except.error e
      | Except.ok _ => Except.ok o
  else Except.error ParseErr.assertionError

/-- The identifier string of `PKCS1Container.public_key_hash`, built from
`_pubkey_rsa` / `_pubkey_ec` (a re-load of `native["private_key"]`). -/
def identString (L : Lib) (o : PrivObj) : Option String :=
  if o.algorithm = "rsa" then o.loaded_rsa_modulus.map (fun m => toString m)
  else if o.algorithm = "ec" then o.loaded_ec_public_key.map L.str_bytes
  else none

/-- `PKCS1Container.public_key_hash`. -/
def public_key_hash (L : Lib) (o : PrivObj) : Option String :=
  (identString L o).map (AbstractContainer.sha256 L)

end PKCS1Container

namespace X509Container

/-- `X509Container.algorithm`. -/
def algorithm (o : CertObj) : String := o.spki_algorithm

/-- `X509Container.parse`: note the decoder is called on the stored bytes
only — the stored password is never passed on. -/
def parse (L : Lib) (c : Container) : Except ParseErr CertObj :=
  if c.type = ContainerTypes.X509 then
    match L.parse_certificate c.bytes none with
    | none => Except.error ParseErr.decodeError
    | some o =>
      match AbstractContainer.raise_if_wrong_algorithm (algorithm o) with
      | Except.error e => Except.error e
      | Except.ok _ => Except.ok o
  else Except.error ParseErr.assertionError

/-- The identifier string of `X509Container.public_key_hash`. -/
def identString (L : Lib) (o : CertObj) : Option String :=
  if o.spki_algorithm = "rsa" then o.spki_modulus.map (fun m => toString m)
  else if o.spki_algorithm = "ec" then o.spki_public_key.map L.str_bytes
  else none

/-- `X509Container.public_key_hash`. -/
def public_key_hash (L : Lib) (o : CertObj) : Option String :=
  (identString L o).map (AbstractContainer.sha256 L)

/-- `X509Container._try_to_get_value` for a one-key path into a flat
string dictionary: the value at the key, or the default on a lookup miss
(the `except` branch). -/
def try_to_get_value (d : List (String × String)) (key : String)
    (default : String) : String :=
  match d.lookup key with
  | some v => v
  | none => default

/-- `X509Container._read_subjectinfo`. -/
def read_subjectinfo (d : List (String × String)) : SubjectInfo :=
  { location := try_to_get_value d "locality_name" ""
    cname := try_to_get_value d "common_name" ""
    country := try_to_get_value d "country_name" ""
    email := try_to_get_value d "email_address" ""
    organization := try_to_get_value d "organization_name" ""
    unit := try_to_get_value d "organizational_unit_name" ""
    province := try_to_get_value d "state_or_province_name" "" }

/-- `X509Container.to_public_key` applied to the parsed object; `none`
when `public_key_hash` raises. -/
def to_public_key (L : Lib) (c : Container) (o : CertObj) : Option Certificate :=
  match public_key_hash L o with
  | none => none
  | some h =>
    some
      { der_container := o.dump
        type := c.type.value
        algorithm := o.spki_algorithm
        hash_algorithm := o.hash_algo
        public_key_hash := h
        serial_number := o.serial_number
        is_CA := (match o.ca with
          | none => false
          | some false => false
          | some true => true)
        valid_not_after := o.not_after
        valid_not_before := o.not_before
        issuer := read_subjectinfo o.issuer
        subject := read_subjectinfo o.subject
        domains := o.valid_domains }

/-- `container.parse(); container.to_public_key()` as one pipeline. -/
def parse_to_public_key (L : Lib) (c : Container) : Except ParseErr Certificate :=
  match parse L c with
  | Except.error e => Except.error e
  | Except.ok o =>
    match to_public_key L c o with
    | none => Except.error ParseErr.pyError
    | some pk => Except.ok pk

end X509Container

/-- A parsed container of any of the four concrete variants, the receiver
shape accepted by `X509Container.is_cert_of`. -/
inductive ParsedContainer where
  | pkcs1 (o : PrivObj)
  | pkcs8 (o : PrivObj)
  | pkcs12 (o : Pkcs12Obj)
  | x509 (o : CertObj)
deriving DecidableEq

namespace PKCS12Container

/-- `PKCS12Container.parse`. -/
def parse (L : Lib) (c : Container) : Except ParseErr Pkcs12Obj :=
  if c.type = ContainerTypes.PKCS12 then
    match L.parse_pkcs12 c.bytes c.password with
    | none => Except.error ParseErr.decodeError
    | some o =>
      match AbstractContainer.raise_if_wrong_algorithm o.privatekey.algorithm with
      | Except.error e => Except.error e
      | Except.ok _ => Except.ok o
  else Except.error ParseErr.assertionError

/-- `PKCS12Container.public_key_hash`: same field accesses as the PKCS8
variant, applied to the embedded private key. -/
def public_key_hash (L : Lib) (o : Pkcs12Obj) : Option String :=
  (PKCS8Container.identString L o.privatekey).map (AbstractContainer.sha256 L)

/-- `PKCS12Container.to_private_key`: dump the embedded key, route the
bytes through `PKCS8Container.by_bytes` (no password) and its
parse / to_private_key steps. -/
def to_private_key (L : Lib) (o : Pkcs12Obj) : Except ParseErr PrivateKey :=
  PKCS8Container.parse_to_private_key L
    (AbstractContainer.by_bytes L o.privatekey.dump none)

/-- `PKCS12Container.to_public_key`: dump the main certificate, route the
bytes through `X509Container.by_bytes` (no password) and its
parse / to_public_key steps. -/
def to_public_key (L : Lib) (o : Pkcs12Obj) : Except ParseErr Certificate :=
  X509Container.parse_to_public_key L
    (AbstractContainer.by_bytes L o.cert.dump none)

end PKCS12Container

/-- `ParsedContainer.public_key_hash`: the polymorphic
`container.public_key_hash()` call of `X509Container.is_cert_of`. -/
def ParsedContainer.public_key_hash (L : Lib) : ParsedContainer → Option String
  | .pkcs1 o => PKCS1Container.public_key_hash L o
  | .pkcs8 o => PKCS8Container.public_key_hash L o
  | .pkcs12 o => PKCS12Container.public_key_hash L o
  | .x509 o => X509Container.public_key_hash L o

/-- `X509Container.is_cert_of`: compute the argument's fingerprint, then
the receiver's, and compare; `none` when either computation raises. -/
def X509Container.is_cert_of (L : Lib) (o : CertObj) (container : ParsedContainer) :
    Option Bool :=
  match ParsedContainer.public_key_hash L container with
  | none => none
  | some ident =>
    match X509Container.public_key_hash L o with
    | none => none
    | some myident => some (ident == myident)

/-- The mutable state of a `PKCS8Container` instance as touched by
`by_bytes` and `parse`: `parse` assigns `self.asn1` and leaves every
other attribute — in particular `self.password` — unchanged. -/
structure PKCS8State where
  bytes : Bytes
  type : ContainerTypes
  password : Option Bytes
  asn1 : Option PrivObj
deriving DecidableEq

/-- `PKCS8Container.by_bytes`, keeping the full attribute state. -/
def PKCS8Container.by_bytes_state (L : Lib) (b : Bytes) (password : Option Bytes) :
    PKCS8State :=
  { bytes := b
    type := ContainerDetector.detect_type L b password
    password := password
    asn1 := none }

/-- `PKCS8Container.parse` as a state transformer: the resulting attribute
state paired with the outcome (`self.asn1` is assigned before the
algorithm guard runs, exactly as in the source). -/
def PKCS8Container.parse_step (L : Lib) (s : PKCS8State) :
    PKCS8State × Except ParseErr Unit :=
  if s.type = ContainerTypes.PKCS8 then
    match L.parse_private (PyObj.ofBytes s.bytes) s.password with
    | none => (s, Except.error ParseErr.decodeError)
    | some o =>
      match AbstractContainer.raise_if_wrong_algorithm o.algorithm with
      | Except.error e => ({ s with asn1 := some o }, Except.error e)
      | Except.ok _ => ({ s with asn1 := some o }, Except.ok ())
  else (s, Except.error ParseErr.assertionError)

/-! Concrete instantiations of the black-box libraries, used to evaluate
the embedded code on closed inputs. -/

/-- A fixed 32-byte digest standing in for a concrete SHA-256 output. -/
def demoDigest : List Nat → List Nat := fun _ => List.replicate 32 0

/-- The formatted fingerprint of the all-zero digest. -/
def fp00 : String := AbstractContainer.format_hash (List.replicate 32 0)

/-- A decoded RSA private key whose DER dump is the byte string `[1]`. -/
def rsaKeyObj : PrivObj :=
  { algorithm := "rsa"
    modulus := some 7
    public_key := none
    loaded_rsa_modulus := some 7
    loaded_ec_public_key := none
    dump := [1] }

/-- A structurally valid private key using an unsupported algorithm. -/
def dsaKeyObj : PrivObj :=
  { algorithm := "dsa"
    modulus := some 1
    public_key := none
    loaded_rsa_modulus := none
    loaded_ec_public_key := none
    dump := [3] }

/-- A minimal decoded certificate: RSA key with modulus 7, no optional
subject fields, no CA extension, DER dump `[2]`. -/
def certObjMin : CertObj :=
  { spki_algorithm := "rsa"
    spki_modulus := some 7
    spki_public_key := none
    hash_algo := "sha256"
    serial_number := 1
    ca := none
    not_before := none
    not_after := none
    issuer := []
    subject := []
    valid_domains := []
    dump := [2] }

/-- A library in which every byte string decodes as the RSA private key
`rsaKeyObj` and nothing decodes as a bundle or a certificate. -/
def Lrsa : Lib where
  parse_private o _ :=
    match o with
    | PyObj.ofBytes _ => some rsaKeyObj
    | PyObj.typeObject => none
  parse_certificate _ _ := none
  parse_pkcs12 _ _ := none
  sha256 := demoDigest
  utf8 _ := []
  str_bytes _ := ""
  sha256_length := fun _ => by simp [demoDigest]
  sha256_bytes := fun s b hb => by
    simp [demoDigest, List.eq_of_mem_replicate hb]
  parse_private_type_object := fun _ => rfl

/-- A library in which every byte string decodes as the DSA private key
`dsaKeyObj`. -/
def Ldsa : Lib where
  parse_private o _ :=
    match o with
    | PyObj.ofBytes _ => some dsaKeyObj
    | PyObj.typeObject => none
  parse_certificate _ _ := none
  parse_pkcs12 _ _ := none
  sha256 := demoDigest
  utf8 _ := []
  str_bytes _ := ""
  sha256_length := fun _ => by simp [demoDigest]
  sha256_bytes := fun s b hb => by
    simp [demoDigest, List.eq_of_mem_replicate hb]
  parse_private_type_object := fun _ => rfl

/-- A library in which every byte string decodes as the minimal
certificate `certObjMin` (with any password) and nothing decodes as a
private key or a bundle. -/
def Lcert : Lib where
  parse_private _ _ := none
  parse_certificate _ _ := some certObjMin
  parse_pkcs12 _ _ := none
  sha256 := demoDigest
  utf8 _ := []
  str_bytes _ := ""
  sha256_length := fun _ => by simp [demoDigest]
  sha256_bytes := fun s b hb => by
    simp [demoDigest, List.eq_of_mem_replicate hb]
  parse_private_type_object := fun _ => rfl

/-- A library in which the byte string `[1]` (the dump of `rsaKeyObj`)
decodes as that RSA key and the byte string `[2]` (the dump of
`certObjMin`) decodes as that certificate. -/
def Lpair : Lib where
  parse_private o _ :=
    match o with
    | PyObj.ofBytes [1] => some rsaKeyObj
    | _ => none
  parse_certificate b _ := if b = [2] then some certObjMin else none
  parse_pkcs12 _ _ := none
  sha256 := demoDigest
  utf8 _ := []
  str_bytes _ := ""
  sha256_length := fun _ => by simp [demoDigest]
  sha256_bytes := fun s b hb => by
    simp [demoDigest, List.eq_of_mem_replicate hb]
  parse_private_type_object := fun _ => rfl

/-- A library in which nothing decodes: every probe fails, as for
arbitrary random bytes. -/
def Lnone : Lib where
  parse_private _ _ := none
  parse_certificate _ _ := none
  parse_pkcs12 _ _ := none
  sha256 := demoDigest
  utf8 _ := []
  str_bytes _ := ""
  sha256_length := fun _ => by simp [demoDigest]
  sha256_bytes := fun s b hb => by
    simp [demoDigest, List.eq_of_mem_replicate hb]
  parse_private_type_object := fun _ => rfl

/-- The bundle pairing `rsaKeyObj` with `certObjMin`. -/
def bundleObj : Pkcs12Obj :=
  { privatekey := rsaKeyObj
    cert := certObjMin
    certs := [] }

/-- A `SubjectInfo` with every field at its default. -/
def emptySubject : SubjectInfo :=
  { cname := ""
    organization := ""
    unit := ""
    location := ""
    province := ""
    country := ""
    email := "" }

/-- The normalized private key produced from `rsaKeyObj`. -/
def keyW : PrivateKey :=
  { algorithm := "rsa"
    der_container := [1]
    type := some "PKCS8"
    public_key_hash := fp00 }

/-- The normalized certificate produced from `certObjMin`. -/
def certW : Certificate :=
  { der_container := [2]
    type := some "X509"
    algorithm := "rsa"
    hash_algorithm := "sha256"
    public_key_hash := fp00
    serial_number := 1
    is_CA := false
    valid_not_after := none
    valid_not_before := none
    issuer := emptySubject
    subject := emptySubject
    domains := [] }

/-! Vocabulary for stating the fingerprint format. -/

/-- An uppercase hexadecimal digit. -/
def isUpperHexChar (c : Char) : Bool :=
  ['0', '1', '2', '3', '4', '5', '6', '7', '8', '9',
   'A', 'B', 'C', 'D', 'E', 'F'].contains c

/-- Groups joined by single colons, no leading or trailing separator. -/
def colonJoin : List (List Char) → List Char
  | [] => []
  | [g] => g
  | g :: h :: t => g ++ ':' :: colonJoin (h :: t)

/-! Helper lemmas. -/

/-- The two-character grouping of a hexlified byte list recovers the
per-byte digit pairs. -/
theorem chunkPairs_hexlify_map (f : Char → Char) (bs : List Nat) :
    chunkPairs ((hexlify bs).map f) =
      bs.map (fun b => [f (hexDigitChar (b / 16)), f (hexDigitChar (b % 16))]) := by
  induction bs with
  | nil => rfl
  | cons b bs ih =>
    have h1 : hexlify (b :: bs)
        = hexDigitChar (b / 16) :: hexDigitChar (b % 16) :: hexlify bs := by
      simp [hexlify]
    rw [h1, List.map_cons, List.map_cons]
    simp only [chunkPairs]
    rw [ih, List.map_cons]

/-- Appending `":"` to every group and dropping the final character is
joining the groups by colons. -/
theorem dropLast_flatMap_colon (gs : List (List Char)) (hne : gs ≠ []) :
    (gs.flatMap (fun part => part ++ [':'])).dropLast = colonJoin gs := by
  induction gs with
  | nil => exact absurd rfl hne
  | cons g gs ih =>
    cases gs with
    | nil => simp [colonJoin]
    | cons h t =>
      have hne2 : ((h :: t).flatMap (fun part => part ++ [':'])) ≠ [] := by
        simp [List.flatMap_cons]
      rw [List.flatMap_cons, List.dropLast_append_of_ne_nil _ hne2,
        ih (by simp)]
      simp [colonJoin]

/-- Length of a colon join of two-character groups. -/
theorem colonJoin_length (gs : List (List Char))
    (hall : ∀ g ∈ gs, g.length = 2) (hne : gs ≠ []) :
    (colonJoin gs).length = 3 * gs.length - 1 := by
  induction gs with
  | nil => exact absurd rfl hne
  | cons g gs ih =>
    cases gs with
    | nil => simp [colonJoin, hall g (by simp)]
    | cons h t =>
      have hg := hall g (by simp)
      have ihh := ih (fun x hx => hall x (List.mem_cons_of_mem g hx)) (by simp)
      simp only [colonJoin, List.length_append, List.length_cons] at *
      omega

/-- The uppercase of a hex digit character is an uppercase hex digit. -/
theorem hexDigitChar_upperHex :
    ∀ n, n < 16 → isUpperHexChar (Char.toUpper (hexDigitChar n)) = true := by decide

/-- `_format_hash` of any 32-byte digest is 32 uppercase-hex pairs joined
by colons, 95 characters in all. -/
theorem format_hash_fingerprint (bs : List Nat) (hlen : bs.length = 32)
    (hb : ∀ b ∈ bs, b < 256) :
    ∃ gs : List (List Char), gs.length = 32 ∧
      (∀ g ∈ gs, g.length = 2 ∧ ∀ c ∈ g, isUpperHexChar c = true) ∧
      (AbstractContainer.format_hash bs).data = colonJoin gs ∧
      (AbstractContainer.format_hash bs).length = 95 := by
  have hb0 : bs ≠ [] := by
    intro h
    rw [h] at hlen
    simp at hlen
  have hglen : ∀ g ∈ bs.map (fun b => [Char.toUpper (hexDigitChar (b / 16)),
      Char.toUpper (hexDigitChar (b % 16))]),
      g.length = 2 ∧ ∀ c ∈ g, isUpperHexChar c = true := by
    intro g hg
    simp only [List.mem_map] at hg
    obtain ⟨b, hbmem, rfl⟩ := hg
    have hblt := hb b hbmem
    refine ⟨rfl, ?_⟩
    intro c hc
    simp only [List.mem_cons, List.not_mem_nil, or_false] at hc
    rcases hc with rfl | rfl
    · exact hexDigitChar_upperHex (b / 16) (by omega)
    · exact hexDigitChar_upperHex (b % 16) (by omega)
  have hdata : (AbstractContainer.format_hash bs).data =
      colonJoin (bs.map (fun b => [Char.toUpper (hexDigitChar (b / 16)),
        Char.toUpper (hexDigitChar (b % 16))])) := by
    show (((chunkPairs ((hexlify bs).map Char.toUpper)).flatMap
        (fun part => part ++ [':'])).dropLast) = _
    rw [chunkPairs_hexlify_map Char.toUpper bs]
    refine dropLast_flatMap_colon _ ?_
    intro hcontra
    exact hb0 (List.map_eq_nil_iff.mp hcontra)
  have hlen95 : (AbstractContainer.format_hash bs).length = 95 := by
    have hjoin := colonJoin_length
      (bs.map (fun b => [Char.toUpper (hexDigitChar (b / 16)),
        Char.toUpper (hexDigitChar (b % 16))]))
      (fun g hg => (hglen g hg).1)
      (fun hcontra => hb0 (List.map_eq_nil_iff.mp hcontra))
    calc (AbstractContainer.format_hash bs).length
        = (AbstractContainer.format_hash bs).data.length := rfl
      _ = 95 := by rw [hdata, hjoin]; simp [hlen]
  exact ⟨_, by simp [hlen], hglen, hdata, hlen95⟩

/-- The raw-key probe as written never consults the wrapped-key check on
the candidate bytes: it degenerates to "the private-key decode
succeeds". -/
theorem is_pkcs1_ignores_input_shape (L : Lib) (b : Bytes) (p : Option Bytes) :
    ContainerDetector.is_pkcs1 L (PyObj.ofBytes b) p
      = (L.parse_private (PyObj.ofBytes b) p).isSome := by
  unfold ContainerDetector.is_pkcs1 ContainerDetector.is_pkcs8
  rw [L.parse_private_type_object]
  simp

/-- `parse_step` never changes the stored password attribute. -/
theorem parse_step_password_unchanged (L : Lib) (s : PKCS8State) :
    ((PKCS8Container.parse_step L s).1).password = s.password := by
  unfold PKCS8Container.parse_step
  split_ifs
  · cases hp : L.parse_private (PyObj.ofBytes s.bytes) s.password with
    | none => rfl
    | some o =>
      simp only
      cases AbstractContainer.raise_if_wrong_algorithm o.algorithm <;> rfl
  · rfl

/-! Claim theorems. -/

/-- C1: the claim states that `_is_pkcs1` returns true iff the
private-key decode of the input bytes succeeds and `_is_pkcs8` applied to
those same input bytes does not match.  The code instead applies the
`_is_pkcs8` exclusion to the Python builtin type object `bytes`, so the
exclusion never fires: on a PKCS#8-shaped input (here the byte string
`[1]` under the library `Lrsa`, where the decode succeeds and
`_is_pkcs8` matches the input) `_is_pkcs1` still returns true, where the
claim requires false. -/
theorem is_pkcs1_exclusion_broken :
    ContainerDetector.is_pkcs8 Lrsa (PyObj.ofBytes [1]) none = true ∧
    ContainerDetector.is_pkcs1 Lrsa (PyObj.ofBytes [1]) none = true := by decide

/-- C2: `detect_type` probes in the fixed order PKCS12, PKCS8, PKCS1,
X509, returning the tag of the first matching probe; whenever the
wrapped-private-key probe matches, the result is never `PKCS1`, and it is
`PKCS8` as soon as the bundle probe (which a PKCS#8-encoded key does not
satisfy) fails — regardless of whether the raw-key probe would also
accept the bytes. -/
theorem detect_type_probe_order (L : Lib) (b : Bytes) (p : Option Bytes)
    (h8 : ContainerDetector.is_pkcs8 L (PyObj.ofBytes b) p = true) :
    ContainerDetector.detect_type L b p ≠ ContainerTypes.PKCS1 ∧
      (ContainerDetector.is_pkcs12 L b p = false →
        ContainerDetector.detect_type L b p = ContainerTypes.PKCS8) ∧
      ContainerDetector.detect_type L b p =
        (if ContainerDetector.is_pkcs12 L b p then ContainerTypes.PKCS12
         else if ContainerDetector.is_pkcs8 L (PyObj.ofBytes b) p then
           ContainerTypes.PKCS8
         else if ContainerDetector.is_pkcs1 L (PyObj.ofBytes b) p then
           ContainerTypes.PKCS1
         else if ContainerDetector.is_x509 L b p then ContainerTypes.X509
         else ContainerTypes.Undefined) := by
  refine ⟨?_, ?_, rfl⟩
  · unfold ContainerDetector.detect_type
    rw [h8]
    split_ifs <;> simp_all
  · intro h12
    unfold ContainerDetector.detect_type
    rw [h8, h12]
    simp

/-- Witness for C2: a concrete PKCS#8-shaped input classifies as PKCS8. -/
theorem detect_type_probe_order_w :
    ContainerDetector.detect_type Lrsa [0] none = ContainerTypes.PKCS8 :=
  (detect_type_probe_order Lrsa [0] none (by decide)).2.1 (by decide)

/-- C3: `detect_type` is a total function (every decode failure is
absorbed inside a probe as a `false` result) and it returns the
`Undefined` sentinel exactly when no probe matches. -/
theorem detect_type_undefined_iff (L : Lib) (b : Bytes) (p : Option Bytes) :
    ContainerDetector.detect_type L b p = ContainerTypes.Undefined ↔
      (ContainerDetector.is_pkcs12 L b p = false ∧
       ContainerDetector.is_pkcs8 L (PyObj.ofBytes b) p = false ∧
       ContainerDetector.is_pkcs1 L (PyObj.ofBytes b) p = false ∧
       ContainerDetector.is_x509 L b p = false) := by
  unfold ContainerDetector.detect_type
  split_ifs with h1 h2 h3 h4 <;> simp_all

/-- Witness for C3: sixteen arbitrary bytes, on which every decode
fails, classify as `Undefined`. -/
theorem detect_type_undefined_iff_w :
    ContainerDetector.detect_type Lnone
      [42, 7, 99, 1, 250, 3, 18, 77, 5, 9, 200, 13, 54, 88, 21, 34] none
      = ContainerTypes.Undefined :=
  (detect_type_undefined_iff Lnone
      [42, 7, 99, 1, 250, 3, 18, 77, 5, 9, 200, 13, 54, 88, 21, 34] none).mpr
    (by decide)

/-- C4: `_sha256` is the SHA-256 digest of the UTF-8 encoding of the
input, formatted as 32 uppercase-hex byte pairs joined by 31 colons with
no trailing separator — 95 characters — and the same input always yields
the same output. -/
theorem sha256_fingerprint_format (L : Lib) (x : String) :
    AbstractContainer.sha256 L x
        = AbstractContainer.format_hash (L.sha256 (L.utf8 x)) ∧
      (AbstractContainer.sha256 L x).length = 95 ∧
      (∃ gs : List (List Char), gs.length = 32 ∧
        (∀ g ∈ gs, g.length = 2 ∧ ∀ c ∈ g, isUpperHexChar c = true) ∧
        (AbstractContainer.sha256 L x).data = colonJoin gs) ∧
      AbstractContainer.sha256 L x = AbstractContainer.sha256 L x := by
  obtain ⟨gs, h32, hgood, hdata, h95⟩ :=
    format_hash_fingerprint (L.sha256 (L.utf8 x)) (L.sha256_length _)
      (L.sha256_bytes _)
  exact ⟨rfl, h95, ⟨gs, h32, hgood, hdata⟩, rfl⟩

/-- Witness for C4: a concrete fingerprint has 95 characters. -/
theorem sha256_fingerprint_format_w :
    (AbstractContainer.sha256 Lnone "abc").length = 95 :=
  (sha256_fingerprint_format Lnone "abc").2.1

/-- When the parse / to_private_key pipeline of a PKCS8 container
succeeds, the produced fingerprint is the `public_key_hash` of the
decoded object. -/
theorem pkcs8_pipeline_hash (L : Lib) (cb : Container) (po : PrivObj)
    (k : PrivateKey)
    (hdec : L.parse_private (PyObj.ofBytes cb.bytes) cb.password = some po)
    (hk : PKCS8Container.parse_to_private_key L cb = Except.ok k) :
    PKCS8Container.public_key_hash L po = some k.public_key_hash := by
  by_cases ht : cb.type = ContainerTypes.PKCS8
  · cases hguard : AbstractContainer.raise_if_wrong_algorithm po.algorithm with
    | error e =>
      simp only [PKCS8Container.parse_to_private_key, PKCS8Container.parse,
        hdec, ht, eq_self_iff_true, if_true, hguard] at hk
      exact Except.noConfusion hk
    | ok u =>
      simp only [PKCS8Container.parse_to_private_key, PKCS8Container.parse,
        hdec, ht, eq_self_iff_true, if_true, hguard,
        PKCS8Container.to_private_key] at hk
      cases hh : PKCS8Container.public_key_hash L po with
      | none =>
        rw [hh] at hk
        exact Except.noConfusion hk
      | some h =>
        rw [hh] at hk
        simp only [Except.ok.injEq] at hk
        subst hk
        rfl
  · simp only [PKCS8Container.parse_to_private_key, PKCS8Container.parse,
      ht, if_false] at hk
    exact Except.noConfusion hk

/-- When the parse / to_public_key pipeline of an X509 container
succeeds, the produced fingerprint is the `public_key_hash` of the
decoded object. -/
theorem x509_pipeline_hash (L : Lib) (cb : Container) (co : CertObj)
    (c : Certificate)
    (hdec : L.parse_certificate cb.bytes none = some co)
    (hc : X509Container.parse_to_public_key L cb = Except.ok c) :
    X509Container.public_key_hash L co = some c.public_key_hash := by
  by_cases ht : cb.type = ContainerTypes.X509
  · cases hguard : AbstractContainer.raise_if_wrong_algorithm
        (X509Container.algorithm co) with
    | error e =>
      simp only [X509Container.parse_to_public_key, X509Container.parse,
        hdec, ht, eq_self_iff_true, if_true, hguard] at hc
      exact Except.noConfusion hc
    | ok u =>
      simp only [X509Container.parse_to_public_key, X509Container.parse,
        hdec, ht, eq_self_iff_true, if_true, hguard,
        X509Container.to_public_key] at hc
      cases hh : X509Container.public_key_hash L co with
      | none =>
        rw [hh] at hc
        exact Except.noConfusion hc
      | some h =>
        rw [hh] at hc
        simp only [Except.ok.injEq] at hc
        subst hc
        rfl
  · simp only [X509Container.parse_to_public_key, X509Container.parse,
      ht, if_false] at hc
    exact Except.noConfusion hc

/-- C5: for a parsed bundle whose main certificate carries the public
key of the embedded private key (equal identifier strings after the
independent re-decodes), the fingerprint of the normalized certificate
equals the fingerprint of the normalized private key. -/
theorem pkcs12_matching_invariant (L : Lib) (o : Pkcs12Obj) (po : PrivObj)
    (co : CertObj) (k : PrivateKey) (c : Certificate)
    (hpo : L.parse_private (PyObj.ofBytes o.privatekey.dump) none = some po)
    (hco : L.parse_certificate o.cert.dump none = some co)
    (hcorr : X509Container.identString L co = PKCS8Container.identString L po)
    (hk : PKCS12Container.to_private_key L o = Except.ok k)
    (hc : PKCS12Container.to_public_key L o = Except.ok c) :
    c.public_key_hash = k.public_key_hash := by
  have h1 := pkcs8_pipeline_hash L
    (AbstractContainer.by_bytes L o.privatekey.dump none) po k hpo hk
  have h2 := x509_pipeline_hash L
    (AbstractContainer.by_bytes L o.cert.dump none) co c hco hc
  unfold PKCS8Container.public_key_hash at h1
  unfold X509Container.public_key_hash at h2
  rw [hcorr, h1] at h2
  exact (Option.some.inj h2).symm

/-- Witness for C5: a concrete bundle whose key and certificate share
the modulus 7 yields equal fingerprints on both normalization paths. -/
theorem pkcs12_matching_invariant_w :
    certW.public_key_hash = keyW.public_key_hash :=
  pkcs12_matching_invariant Lpair bundleObj rsaKeyObj certObjMin keyW certW
    (by decide) (by decide) (by decide) (by rfl) (by rfl)

/-- C6: with the structural decode of a PKCS8 container succeeding,
`parse` raises the unsupported-algorithm `CertificateException` exactly
when the lower-cased algorithm tag is neither `"rsa"` nor `"ec"`, and in
that case the parse / to_private_key pipeline yields that error, never
a `PrivateKey`. -/
theorem pkcs8_parse_algorithm_guard (L : Lib) (c : Container) (o : PrivObj)
    (hd : L.parse_private (PyObj.ofBytes c.bytes) c.password = some o)
    (ht : c.type = ContainerTypes.PKCS8) :
    (PKCS8Container.parse L c
        = Except.error (ParseErr.certificateException
            ("Detected unsupported algorithm " ++ lowerStr o.algorithm)) ↔
      ¬(lowerStr o.algorithm = "rsa" ∨ lowerStr o.algorithm = "ec")) ∧
    (¬(lowerStr o.algorithm = "rsa" ∨ lowerStr o.algorithm = "ec") →
      PKCS8Container.parse_to_private_key L c
        = Except.error (ParseErr.certificateException
            ("Detected unsupported algorithm " ++ lowerStr o.algorithm))) := by
  by_cases halg : lowerStr o.algorithm = "rsa" ∨ lowerStr o.algorithm = "ec"
  · have hp : PKCS8Container.parse L c = Except.ok o := by
      simp [PKCS8Container.parse, ht, hd,
        AbstractContainer.raise_if_wrong_algorithm, halg]
    refine ⟨?_, fun h => absurd halg h⟩
    rw [hp]
    simp [halg]
  · have hp : PKCS8Container.parse L c
        = Except.error (ParseErr.certificateException
            ("Detected unsupported algorithm " ++ lowerStr o.algorithm)) := by
      simp [PKCS8Container.parse, ht, hd,
        AbstractContainer.raise_if_wrong_algorithm, halg]
    refine ⟨by simp [hp, halg], fun _ => ?_⟩
    simp [PKCS8Container.parse_to_private_key, hp]

/-- Witness for C6: a DSA-keyed container is rejected with the
unsupported-algorithm exception. -/
theorem pkcs8_parse_algorithm_guard_w :
    PKCS8Container.parse Ldsa (AbstractContainer.by_bytes Ldsa [3] none)
      = Except.error (ParseErr.certificateException
          ("Detected unsupported algorithm " ++ lowerStr dsaKeyObj.algorithm)) :=
  (pkcs8_parse_algorithm_guard Ldsa (AbstractContainer.by_bytes Ldsa [3] none)
      dsaKeyObj (by decide) (by decide)).1.mpr (by decide)

/-- C7: when `to_public_key` succeeds, each of the seven SubjectInfo
fields is the value at its key when present and `""` when absent, and a
missing CA extension yields `is_CA = false`; no lookup miss escapes as an
exception. -/
theorem x509_optional_field_defaults (L : Lib) (c : Container) (o : CertObj)
    (pk : Certificate) (hp : X509Container.to_public_key L c o = some pk) :
    pk.subject.cname = ((o.subject.lookup "common_name").getD "") ∧
    pk.subject.organization
        = ((o.subject.lookup "organization_name").getD "") ∧
    pk.subject.unit
        = ((o.subject.lookup "organizational_unit_name").getD "") ∧
    pk.subject.location = ((o.subject.lookup "locality_name").getD "") ∧
    pk.subject.province
        = ((o.subject.lookup "state_or_province_name").getD "") ∧
    pk.subject.country = ((o.subject.lookup "country_name").getD "") ∧
    pk.subject.email = ((o.subject.lookup "email_address").getD "") ∧
    (o.ca = none → pk.is_CA = false) := by
  have hval : ∀ (d : List (String × String)) (key dflt : String),
      X509Container.try_to_get_value d key dflt = (d.lookup key).getD dflt := by
    intro d key dflt
    unfold X509Container.try_to_get_value
    cases d.lookup key <;> rfl
  unfold X509Container.to_public_key at hp
  cases hh : X509Container.public_key_hash L o with
  | none => rw [hh] at hp; simp at hp
  | some h =>
    rw [hh] at hp
    simp only [Option.some.injEq] at hp
    subst hp
    refine ⟨?_, ?_, ?_, ?_, ?_, ?_, ?_, ?_⟩
    · simp [X509Container.read_subjectinfo, hval]
    · simp [X509Container.read_subjectinfo, hval]
    · simp [X509Container.read_subjectinfo, hval]
    · simp [X509Container.read_subjectinfo, hval]
    · simp [X509Container.read_subjectinfo, hval]
    · simp [X509Container.read_subjectinfo, hval]
    · simp [X509Container.read_subjectinfo, hval]
    · intro hca
      simp [hca]

/-- Witness for C7: the minimal certificate (no subject fields, no CA
extension) normalizes with all-empty subject fields and a false CA
flag. -/
theorem x509_optional_field_defaults_w :
    certW.subject.cname = ((certObjMin.subject.lookup "common_name").getD "") ∧
    certW.subject.organization
        = ((certObjMin.subject.lookup "organization_name").getD "") ∧
    certW.subject.unit
        = ((certObjMin.subject.lookup "organizational_unit_name").getD "") ∧
    certW.subject.location
        = ((certObjMin.subject.lookup "locality_name").getD "") ∧
    certW.subject.province
        = ((certObjMin.subject.lookup "state_or_province_name").getD "") ∧
    certW.subject.country
        = ((certObjMin.subject.lookup "country_name").getD "") ∧
    certW.subject.email
        = ((certObjMin.subject.lookup "email_address").getD "") ∧
    (certObjMin.ca = none → certW.is_CA = false) :=
  x509_optional_field_defaults Lcert
    (AbstractContainer.by_bytes Lcert [2] none) certObjMin certW (by decide)

/-- C8: `is_cert_of` compares exactly the two fingerprint strings:
whenever both fingerprints compute, the result is the boolean equality of
the strings, and it is `true` iff they are equal. -/
theorem is_cert_of_fingerprint_iff (L : Lib) (o : CertObj)
    (k : ParsedContainer) (i m : String)
    (hk : ParsedContainer.public_key_hash L k = some i)
    (hm : X509Container.public_key_hash L o = some m) :
    X509Container.is_cert_of L o k = some (i == m) ∧
      (X509Container.is_cert_of L o k = some true ↔ m = i) := by
  have h1 : X509Container.is_cert_of L o k = some (i == m) := by
    unfold X509Container.is_cert_of
    rw [hk, hm]
  refine ⟨h1, ?_⟩
  rw [h1]
  constructor
  · intro hsome
    exact (beq_iff_eq.mp (Option.some.inj hsome)).symm
  · intro hmi
    rw [hmi]
    simp

/-- Witness for C8: a certificate and a wrapped key with the same
modulus match. -/
theorem is_cert_of_fingerprint_iff_w :
    X509Container.is_cert_of Lrsa certObjMin
      (ParsedContainer.pkcs8 rsaKeyObj) = some true :=
  (is_cert_of_fingerprint_iff Lrsa certObjMin
      (ParsedContainer.pkcs8 rsaKeyObj) fp00 fp00
      (by decide) (by decide)).2.mpr rfl

/-- C9: the claim states the password is released immediately after
`parse()` completes; the code instead keeps it in the container
attribute state.  Concretely: a container built from bytes `[1]` with
password `[112, 119]` still holds that password after `parse` has
completed successfully. -/
theorem pkcs8_parse_retains_password :
    ((PKCS8Container.parse_step Lrsa
        (PKCS8Container.by_bytes_state Lrsa [1] (some [112, 119]))).1).password
      = some [112, 119] := by decide

/-- C10: for bytes detected as X509 under either password, the
X509Container parse outcome and the normalized certificate are identical
for any two stored passwords — `X509Container.parse` never consults the
stored password. -/
theorem x509_parse_password_independent (L : Lib) (b : Bytes)
    (p1 p2 : Option Bytes)
    (h1 : ContainerDetector.detect_type L b p1 = ContainerTypes.X509)
    (h2 : ContainerDetector.detect_type L b p2 = ContainerTypes.X509) :
    X509Container.parse L (AbstractContainer.by_bytes L b p1)
        = X509Container.parse L (AbstractContainer.by_bytes L b p2) ∧
      X509Container.parse_to_public_key L (AbstractContainer.by_bytes L b p1)
        = X509Container.parse_to_public_key
            L (AbstractContainer.by_bytes L b p2) := by
  have hc1 : AbstractContainer.by_bytes L b p1
      = { bytes := b, type := ContainerTypes.X509, password := p1 } := by
    unfold AbstractContainer.by_bytes
    rw [h1]
  have hc2 : AbstractContainer.by_bytes L b p2
      = { bytes := b, type := ContainerTypes.X509, password := p2 } := by
    unfold AbstractContainer.by_bytes
    rw [h2]
  rw [hc1, hc2]
  exact ⟨rfl, rfl⟩

/-- Witness for C10: same bytes, no password versus password `[9]`,
identical parse results. -/
theorem x509_parse_password_independent_w :
    X509Container.parse Lcert (AbstractContainer.by_bytes Lcert [5] none)
      = X509Container.parse Lcert
          (AbstractContainer.by_bytes Lcert [5] (some [9])) :=
  (x509_parse_password_independent Lcert [5] none (some [9])
      (by decide) (by decide)).1

end StrongMan
